import Mathlib

/-!
Verification of the ensemble inference pipeline of `server/lib/predict.py`
(fake news detector).  The Python source is shallowly embedded: numeric
values are rationals, the external classifier objects are abstracted by
their outputs on the (per-call) feature vector, pickle loads and model
invocations that may raise are modelled with `Bool` flags / `Except`.
-/

namespace FakeNews

/-- The two ensemble labels, `"FAKE"` / `"REAL"` in the source. -/
inductive Label where
  | FAKE
  | REAL
deriving DecidableEq, Repr

/-- Per-classifier output: a binary hard-label prediction together with an
optional probability (`predictions` / `prob_values` entries in
`predict_ensemble`). -/
structure ModelResult where
  pred : ℕ
  probability : Option ℚ
deriving DecidableEq, Repr

/-- Embeds `np.mean` on a list of rationals (the empty list is never passed by the
source; Lean's division by zero gives `0` there). -/
def npMean (l : List ℚ) : ℚ := l.sum / l.length

/-- The aggregation tail of `predict_ensemble` (predict.py lines 190-211):
raise if no predictions, vote by the mean of the binary predictions
(`< 0.5` means FAKE, else REAL), confidence is the mean of the reported
probabilities, falling back to `|mean - 0.5| * 2` when none was reported. -/
def predict_ensemble_aggregate (results : List ModelResult) :
    Except Unit (Label × ℚ) :=
  let predictions : List ℚ := results.map fun r => (r.pred : ℚ)
  let prob_values : List ℚ := results.filterMap (fun r => r.probability)
  if predictions.isEmpty then
    Except.error ()
  else
    let final_predict := npMean predictions
    let prediction_label :=
      if final_predict < 1/2 then Label.FAKE else Label.REAL
    let final_prob :=
      if prob_values.isEmpty then |final_predict - 1/2| * 2
      else npMean prob_values
    Except.ok (prediction_label, final_prob)

/-- Function `convert_to_liar_scale` (predict.py lines 213-238): map the label and
confidence to the 0-5 LIAR ordinal with strict `> 0.8` / `> 0.6`
thresholds. -/
def convert_to_liar_scale (prediction_label : Label) (confidence : ℚ) : ℕ :=
  match prediction_label with
  | Label.FAKE =>
      if confidence > 4/5 then 0
      else if confidence > 3/5 then 1
      else 2
  | Label.REAL =>
      if confidence > 4/5 then 5
      else if confidence > 3/5 then 4
      else 3

/-- A classifier exposing `decision_function` and `predict`
(`bernoulli_nb` / `pca_based` roles), abstracted by its outputs on the
feature vector of the current call. -/
structure ScoreModel where
  score : ℚ
  pred : ℕ
deriving DecidableEq, Repr

/-- A classifier exposing only `predict` (`decision_tree` role). -/
structure TreeModel where
  pred : ℕ
deriving DecidableEq, Repr

/-- A classifier exposing `predict_proba` and `predict` (`random_forest`
role); `proba0` / `proba1` are the class-0 / class-1 probability masses. -/
structure ForestModel where
  proba0 : ℚ
  proba1 : ℚ
  pred : ℕ
deriving DecidableEq, Repr

/-- The four global model slots `B`, `DCT`, `PCA`, `rf` at inference time:
`none` means the slot did not load; `some (Except.error ())` means the slot
is loaded but its invocation raises on this call (the per-model `try`
bodies in `predict_ensemble`); `some (Except.ok m)` is a successful call
with outputs `m`. -/
structure Slots where
  B : Option (Except Unit ScoreModel)
  DCT : Option (Except Unit TreeModel)
  PCA : Option (Except Unit ScoreModel)
  rf : Option (Except Unit ForestModel)
deriving Repr

/-- The logistic transform `1 / (1 + np.exp(-score))`; `exp` abstracts
`np.exp`. -/
def logistic (exp : ℚ → ℚ) (score : ℚ) : ℚ := 1 / (1 + exp (-score))

/-- One guarded per-model block of `predict_ensemble`: a missing or failing
slot contributes nothing, a successful call contributes one adapted
result. -/
def runSlot {α : Type} (slot : Option (Except Unit α))
    (adapt : α → ModelResult) : List ModelResult :=
  match slot with
  | some (Except.ok m) => [adapt m]
  | _ => []

/-- The executor part of `predict_ensemble` (predict.py lines 148-188): the
four per-model blocks in source order, each adapting its model's native
output to a `ModelResult` by the fixed per-role rule. -/
def run_all (exp : ℚ → ℚ) (s : Slots) : List ModelResult :=
  runSlot s.B (fun m => ⟨m.pred, some (logistic exp m.score)⟩) ++
  runSlot s.DCT (fun m => ⟨m.pred, none⟩) ++
  runSlot s.PCA (fun m => ⟨m.pred, some (logistic exp m.score)⟩) ++
  runSlot s.rf (fun m => ⟨m.pred, some m.proba1⟩)

/-- Function `predict_ensemble`, from executor to aggregation, for one feature
vector. -/
def predict_ensemble (exp : ℚ → ℚ) (s : Slots) : Except Unit (Label × ℚ) :=
  predict_ensemble_aggregate (run_all exp s)

/-- The disk / environment as `load_models` observes it: whether
`rfmodel.pkl` exists in the probed directory (the sentinel that decides
`model_dir`), and whether each of the five pickle loads succeeds. -/
structure DiskState where
  rfFileExists : Bool
  bnbLoads : Bool
  dctLoads : Bool
  pcaLoads : Bool
  rfLoads : Bool
  vectLoads : Bool
deriving DecidableEq, Repr

/-- The possible fatal outcomes of `load_models`: the
`FileNotFoundError` when no probed directory holds `rfmodel.pkl`, the
re-raised vectorizer load error, and the `ValueError` when every
classifier slot stayed `None`. -/
inductive LoadError where
  | fileNotFound
  | vectorizerError
  | noModels
deriving DecidableEq, Repr

/-- Which classifier slots ended up loaded (`True` = slot holds a model,
`False` = slot is `None`); the vectorizer is present whenever `load_models`
returns normally. -/
structure Registry where
  B : Bool
  DCT : Bool
  PCA : Bool
  rf : Bool
deriving DecidableEq, Repr

/-- Function `load_models` (predict.py lines 33-99): locate the model directory by
probing for `rfmodel.pkl`; load the four classifiers each inside its own
`try`/`except` (failure leaves the slot `None`); load the vectorizer,
re-raising on failure; raise if every classifier slot is `None`. -/
def load_models (d : DiskState) : Except LoadError Registry :=
  if d.rfFileExists = false then Except.error LoadError.fileNotFound
  else
    let B := d.bnbLoads
    let DCT := d.dctLoads
    let PCA := d.pcaLoads
    let rf := d.rfLoads
    if d.vectLoads = false then Except.error LoadError.vectorizerError
    else if B = false ∧ DCT = false ∧ PCA = false ∧ rf = false then
      Except.error LoadError.noModels
    else Except.ok ⟨B, DCT, PCA, rf⟩

/-- Embeds `re.sub('[^a-zA-Z]', ' ', text)`: replace every character outside the
ASCII alphabet by a space. -/
def subNonAlpha (s : String) : String :=
  ⟨s.data.map fun c => if c.isAlpha then c else ' '⟩

/-- Embeds `str.lower()` on the post-substitution text: after `subNonAlpha`
only ASCII letters and spaces remain, so ASCII lower-casing is exact. -/
def pyLower (s : String) : String :=
  ⟨s.data.map Char.toLower⟩

/-- Accumulating tokenizer behind `pySplit`: collects maximal runs of
non-whitespace characters. -/
def pyWordsAux : List Char → List Char → List String
  | [], acc => if acc = [] then [] else [String.mk acc.reverse]
  | c :: rest, acc =>
    if c.isWhitespace then
      if acc = [] then pyWordsAux rest []
      else String.mk acc.reverse :: pyWordsAux rest []
    else pyWordsAux rest (c :: acc)

/-- Python `str.split()` with no argument: split on whitespace runs,
producing no empty tokens. -/
def pySplit (s : String) : List String :=
  pyWordsAux s.data []

/-- Python `str.strip()`: drop leading and trailing whitespace. -/
def pyStrip (s : String) : String :=
  ⟨(((s.data.dropWhile Char.isWhitespace).reverse.dropWhile
      Char.isWhitespace).reverse)⟩

/-- The stopword set `preprocess_text` ends up with: the English list when
the NLTK resource is available, the empty fallback set otherwise. -/
def stop_words (stopRes : Option (List String)) : List String :=
  stopRes.getD []

/-- Function `preprocess_text` (predict.py lines 101-126): strip non-alphabetic
characters, lower-case, split, drop stopwords, stem, rejoin with single
spaces.  `stopRes` abstracts the NLTK stopword resource (`none` =
unavailable) and `stem` abstracts `PorterStemmer.stem`. -/
def preprocess_text (stopRes : Option (List String))
    (stem : String → String) (text : String) : String :=
  let review := subNonAlpha text
  let review := pyLower review
  let reviewWords := pySplit review
  let stemmed :=
    (reviewWords.filter fun word => word ∉ stop_words stopRes).map stem
  String.intercalate " " stemmed

/-- How `main` classifies escaping pipeline exceptions
(`FileNotFoundError` vs any other `Exception`); both handlers behave the
same way. -/
inductive PipeError where
  | fileNotFound
  | other
deriving DecidableEq, Repr

/-- What `main` prints and whether the pipeline
(`predict_ensemble` / `convert_to_liar_scale`) was invoked at all. -/
structure MainOutput where
  printed : ℕ × ℚ
  pipelineInvoked : Bool
deriving DecidableEq, Repr

/-- Function `main` (predict.py lines 240-275): no argument or empty /
whitespace-only text prints the neutral `[3, 0.5]` without touching the
pipeline; otherwise the pipeline result is mapped through
`convert_to_liar_scale`, and any escaping error again prints `[3, 0.5]`.
`pipeline` abstracts `predict_ensemble` on the given text. -/
def main (arg : Option String)
    (pipeline : String → Except PipeError (Label × ℚ)) : MainOutput :=
  match arg with
  | none => ⟨(3, 1/2), false⟩
  | some text =>
    if text = "" ∨ (pyStrip text).length = 0 then ⟨(3, 1/2), false⟩
    else
      match pipeline text with
      | Except.ok (prediction_label, confidence) =>
          ⟨(convert_to_liar_scale prediction_label confidence, confidence),
            true⟩
      | Except.error _ => ⟨(3, 1/2), true⟩

/-! Helper lemmas shared by the claim theorems. -/

/-- Unfolding of the aggregation tail into its branches. -/
theorem aggregate_eq (results : List ModelResult) :
    predict_ensemble_aggregate results =
      if (results.map fun r => ((r.pred : ℚ))).isEmpty then Except.error ()
      else
        Except.ok
          ((if npMean (results.map fun r => ((r.pred : ℚ))) < 1/2
            then Label.FAKE else Label.REAL),
           (if (results.filterMap fun r => r.probability).isEmpty
            then |npMean (results.map fun r => ((r.pred : ℚ))) - 1/2| * 2
            else npMean (results.filterMap fun r => r.probability))) := rfl

/-- The mean of a list of nonnegative rationals is nonnegative. -/
theorem npMean_nonneg (l : List ℚ) (h : ∀ x ∈ l, 0 ≤ x) : 0 ≤ npMean l := by
  unfold npMean
  exact div_nonneg (List.sum_nonneg h) (Nat.cast_nonneg _)

/-- The mean of a list of rationals each at most one is at most one. -/
theorem npMean_le_one (l : List ℚ) (h : ∀ x ∈ l, x ≤ 1) : npMean l ≤ 1 := by
  rcases l with _ | ⟨a, t⟩
  · simp [npMean]
  · rw [npMean, div_le_one
      (by exact_mod_cast List.length_pos.mpr (List.cons_ne_nil a t))]
    calc (a :: t).sum ≤ (a :: t).length • (1 : ℚ) :=
          List.sum_le_card_nsmul _ _ h
    _ = ((a :: t).length : ℚ) := by simp

/-- Permutations preserve `List.isEmpty`. -/
theorem perm_isEmpty {α : Type} {l m : List α} (h : l.Perm m) :
    l.isEmpty = m.isEmpty := by
  have hl := h.length_eq
  rcases l with _ | ⟨a, t⟩ <;> rcases m with _ | ⟨b, u⟩ <;> simp_all

/-- C1.  For every non-empty result sequence of binary predictions, the
aggregated label is FAKE exactly when the mean vote is strictly below one
half, REAL otherwise, and a tie at exactly one half resolves to REAL. -/
theorem predict_ensemble_label_spec (results : List ModelResult)
    (hne : results ≠ [])
    (_hb : ∀ r ∈ results, r.pred = 0 ∨ r.pred = 1) :
    ∃ c, predict_ensemble_aggregate results =
        Except.ok
          ((if npMean (results.map fun r => ((r.pred : ℚ))) < 1/2
            then Label.FAKE else Label.REAL), c) ∧
      (npMean (results.map fun r => ((r.pred : ℚ))) = 1/2 →
        (if npMean (results.map fun r => ((r.pred : ℚ))) < 1/2
          then Label.FAKE else Label.REAL) = Label.REAL) := by
  have hpe : (results.map fun r => ((r.pred : ℚ))).isEmpty = false := by
    simp [hne]
  rw [aggregate_eq]
  simp only [hpe, Bool.false_eq_true, if_false]
  refine ⟨_, rfl, fun htie => ?_⟩
  rw [if_neg]
  rw [htie]
  exact lt_irrefl _

/-- Witness for C1 at the single-result input predicting class one. -/
theorem predict_ensemble_label_spec_witness :
    ∃ c, predict_ensemble_aggregate [⟨1, none⟩] =
        Except.ok
          ((if npMean ([(⟨1, none⟩ : ModelResult)].map fun r => ((r.pred : ℚ))) < 1/2
            then Label.FAKE else Label.REAL), c) ∧
      (npMean ([(⟨1, none⟩ : ModelResult)].map fun r => ((r.pred : ℚ))) = 1/2 →
        (if npMean ([(⟨1, none⟩ : ModelResult)].map fun r => ((r.pred : ℚ))) < 1/2
          then Label.FAKE else Label.REAL) = Label.REAL) :=
  predict_ensemble_label_spec [⟨1, none⟩] (by simp)
    (by intro r hr; simp at hr; subst hr; right; rfl)

/-- C3.  The LIAR-scale mapper is the fixed six-bucket threshold table:
for confidences in the unit interval, strict thresholds at four fifths and
three fifths pick the ordinal per label, boundary values falling into the
lower-confidence bucket; moreover FAKE at 0.85 maps to 0 and REAL at 0.55
maps to 3. -/
theorem convert_to_liar_scale_partition :
    (∀ c : ℚ, 0 ≤ c → c ≤ 1 →
      ((4/5 < c → convert_to_liar_scale Label.FAKE c = 0) ∧
       (3/5 < c → c ≤ 4/5 → convert_to_liar_scale Label.FAKE c = 1) ∧
       (c ≤ 3/5 → convert_to_liar_scale Label.FAKE c = 2) ∧
       (4/5 < c → convert_to_liar_scale Label.REAL c = 5) ∧
       (3/5 < c → c ≤ 4/5 → convert_to_liar_scale Label.REAL c = 4) ∧
       (c ≤ 3/5 → convert_to_liar_scale Label.REAL c = 3))) ∧
    convert_to_liar_scale Label.FAKE (17/20) = 0 ∧
    convert_to_liar_scale Label.REAL (11/20) = 3 := by
  refine ⟨fun c hc0 hc1 => ⟨?_, ?_, ?_, ?_, ?_, ?_⟩, ?_, ?_⟩
  · intro h
    simp only [convert_to_liar_scale]
    rw [if_pos h]
  · intro h1 h2
    simp only [convert_to_liar_scale]
    rw [if_neg (by linarith), if_pos h1]
  · intro h
    simp only [convert_to_liar_scale]
    rw [if_neg (by linarith), if_neg (by linarith)]
  · intro h
    simp only [convert_to_liar_scale]
    rw [if_pos h]
  · intro h1 h2
    simp only [convert_to_liar_scale]
    rw [if_neg (by linarith), if_pos h1]
  · intro h
    simp only [convert_to_liar_scale]
    rw [if_neg (by linarith), if_neg (by linarith)]
  · norm_num [convert_to_liar_scale]
  · norm_num [convert_to_liar_scale]

/-- Witness for C3: the high-confidence FAKE bucket at confidence 0.9. -/
theorem convert_to_liar_scale_partition_witness :
    convert_to_liar_scale Label.FAKE (9/10) = 0 :=
  (convert_to_liar_scale_partition.1 (9/10) (by norm_num) (by norm_num)).1
    (by norm_num)

/-- C2.  For non-empty results with binary predictions and in-range
probabilities, the aggregated confidence is the mean of the reported
probabilities when any exist, otherwise the rescaled distance of the vote
mean from one half, and it always lies in the unit interval. -/
theorem predict_ensemble_confidence_spec (results : List ModelResult)
    (hne : results ≠ [])
    (hb : ∀ r ∈ results, r.pred = 0 ∨ r.pred = 1)
    (hp : ∀ r ∈ results, ∀ p, r.probability = some p → 0 ≤ p ∧ p ≤ 1) :
    ∃ lbl c, predict_ensemble_aggregate results = Except.ok (lbl, c) ∧
      ((results.filterMap fun r => r.probability) ≠ [] →
        c = npMean (results.filterMap fun r => r.probability)) ∧
      ((results.filterMap fun r => r.probability) = [] →
        c = |npMean (results.map fun r => ((r.pred : ℚ))) - 1/2| * 2) ∧
      0 ≤ c ∧ c ≤ 1 := by
  have hpe : (results.map fun r => ((r.pred : ℚ))).isEmpty = false := by
    simp [hne]
  have hpredmem : ∀ x ∈ results.map fun r => ((r.pred : ℚ)), 0 ≤ x ∧ x ≤ 1 := by
    intro x hx
    rcases List.mem_map.mp hx with ⟨r, hr, hrx⟩
    rcases hb r hr with h0 | h1
    · rw [← hrx, h0]; norm_num
    · rw [← hrx, h1]; norm_num
  have hprobmem : ∀ x ∈ results.filterMap fun r => r.probability,
      0 ≤ x ∧ x ≤ 1 := by
    intro x hx
    rcases List.mem_filterMap.mp hx with ⟨r, hr, hrx⟩
    exact hp r hr x hrx
  rw [aggregate_eq]
  simp only [hpe, Bool.false_eq_true, if_false]
  refine ⟨_, _, rfl, ?_, ?_, ?_, ?_⟩
  · intro hq
    rw [if_neg (by simp [hq])]
  · intro hq
    rw [if_pos (by simp [hq])]
  · by_cases hq : (results.filterMap fun r => r.probability) = []
    · rw [if_pos (by simp [hq])]
      positivity
    · rw [if_neg (by simp [hq])]
      exact npMean_nonneg _ fun x hx => (hprobmem x hx).1
  · by_cases hq : (results.filterMap fun r => r.probability) = []
    · rw [if_pos (by simp [hq])]
      have h0 : 0 ≤ npMean (results.map fun r => ((r.pred : ℚ))) :=
        npMean_nonneg _ fun x hx => (hpredmem x hx).1
      have h1 : npMean (results.map fun r => ((r.pred : ℚ))) ≤ 1 :=
        npMean_le_one _ fun x hx => (hpredmem x hx).2
      have habs : |npMean (results.map fun r => ((r.pred : ℚ))) - 1/2| ≤ 1/2 :=
        abs_le.mpr ⟨by linarith, by linarith⟩
      linarith
    · rw [if_neg (by simp [hq])]
      exact npMean_le_one _ fun x hx => (hprobmem x hx).2

/-- Witness for C2 at a single result reporting probability 0.9. -/
theorem predict_ensemble_confidence_spec_witness :
    ∃ lbl c, predict_ensemble_aggregate [⟨1, some (9/10)⟩] =
        Except.ok (lbl, c) ∧
      (([(⟨1, some (9/10)⟩ : ModelResult)].filterMap fun r => r.probability) ≠ [] →
        c = npMean ([(⟨1, some (9/10)⟩ : ModelResult)].filterMap
          fun r => r.probability)) ∧
      (([(⟨1, some (9/10)⟩ : ModelResult)].filterMap fun r => r.probability) = [] →
        c = |npMean ([(⟨1, some (9/10)⟩ : ModelResult)].map
          fun r => ((r.pred : ℚ))) - 1/2| * 2) ∧
      0 ≤ c ∧ c ≤ 1 :=
  predict_ensemble_confidence_spec [⟨1, some (9/10)⟩] (by simp)
    (by intro r hr; simp at hr; subst hr; right; rfl)
    (by
      intro r hr p hpp
      simp at hr
      subst hr
      simp at hpp
      rw [← hpp]
      norm_num)

/-- C7.  Aggregation is order-independent: permuting the result sequence
never changes the aggregated outcome. -/
theorem predict_ensemble_aggregate_perm (results rearranged : List ModelResult)
    (h : results.Perm rearranged) :
    predict_ensemble_aggregate results =
      predict_ensemble_aggregate rearranged := by
  have hmap := h.map fun r => ((r.pred : ℚ))
  have hfm := h.filterMap fun r => r.probability
  have hmean : npMean (results.map fun r => ((r.pred : ℚ))) =
      npMean (rearranged.map fun r => ((r.pred : ℚ))) := by
    unfold npMean
    rw [hmap.sum_eq, hmap.length_eq]
  have hpmean : npMean (results.filterMap fun r => r.probability) =
      npMean (rearranged.filterMap fun r => r.probability) := by
    unfold npMean
    rw [hfm.sum_eq, hfm.length_eq]
  rw [aggregate_eq, aggregate_eq, perm_isEmpty hmap, perm_isEmpty hfm,
    hmean, hpmean]

/-- Witness for C7 on a concrete two-element swap. -/
theorem predict_ensemble_aggregate_perm_witness :
    predict_ensemble_aggregate [⟨0, none⟩, ⟨1, some (7/10)⟩] =
      predict_ensemble_aggregate [⟨1, some (7/10)⟩, ⟨0, none⟩] :=
  predict_ensemble_aggregate_perm _ _ (List.Perm.swap _ _ _)

/-- C10.  A single contributing result with no probability yields fallback
confidence exactly one, so the LIAR mapping lands on an extreme ordinal:
0 when the lone vote is FAKE, 5 when it is REAL. -/
theorem single_result_no_prob_extreme (r : ModelResult)
    (hnone : r.probability = none) (hb : r.pred = 0 ∨ r.pred = 1) :
    ∃ lbl, predict_ensemble_aggregate [r] = Except.ok (lbl, 1) ∧
      (convert_to_liar_scale lbl 1 = 0 ∨ convert_to_liar_scale lbl 1 = 5) ∧
      (lbl = Label.FAKE → convert_to_liar_scale lbl 1 = 0) ∧
      (lbl = Label.REAL → convert_to_liar_scale lbl 1 = 5) := by
  rcases hb with h0 | h1
  · refine ⟨Label.FAKE, ?_, ?_, ?_, ?_⟩
    · rw [aggregate_eq]
      norm_num [hnone, h0, npMean, abs_of_nonneg, abs_of_nonpos]
    · left; norm_num [convert_to_liar_scale]
    · intro _; norm_num [convert_to_liar_scale]
    · intro hcontra; cases hcontra
  · refine ⟨Label.REAL, ?_, ?_, ?_, ?_⟩
    · rw [aggregate_eq]
      norm_num [hnone, h1, npMean, abs_of_nonneg, abs_of_nonpos]
    · right; norm_num [convert_to_liar_scale]
    · intro hcontra; cases hcontra
    · intro _; norm_num [convert_to_liar_scale]

/-- Witness for C10 at the lone FAKE decision-tree-style result. -/
theorem single_result_no_prob_extreme_witness :
    ∃ lbl, predict_ensemble_aggregate [⟨0, none⟩] = Except.ok (lbl, 1) ∧
      (convert_to_liar_scale lbl 1 = 0 ∨ convert_to_liar_scale lbl 1 = 5) ∧
      (lbl = Label.FAKE → convert_to_liar_scale lbl 1 = 0) ∧
      (lbl = Label.REAL → convert_to_liar_scale lbl 1 = 5) :=
  single_result_no_prob_extreme ⟨0, none⟩ rfl (Or.inl rfl)

/-- C4 counterexample.  With `rfmodel.pkl` absent and every pickle load
otherwise succeeding, `load_models` fails with `FileNotFoundError` before
any classifier loads: absence of the random-forest file on disk is fatal,
because it is the sentinel probed to locate the model directory. -/
theorem load_models_rf_file_absence_fatal :
    load_models ⟨false, true, true, true, true, true⟩ =
      Except.error LoadError.fileNotFound := rfl

/-- C4 amended.  Once the model directory is located (`rfmodel.pkl` exists)
and the vectorizer loads, each classifier slot's outcome depends only on
its own pickle-load flag: any single load failure is tolerated (slot
recorded absent) and never prevents the other classifiers from loading, as
long as at least one classifier loads. -/
theorem load_models_isolated_slots (d : DiskState)
    (hrf : d.rfFileExists = true) (hv : d.vectLoads = true)
    (hone : d.bnbLoads = true ∨ d.dctLoads = true ∨ d.pcaLoads = true ∨
      d.rfLoads = true) :
    load_models d = Except.ok ⟨d.bnbLoads, d.dctLoads, d.pcaLoads, d.rfLoads⟩ := by
  unfold load_models
  rw [hrf, hv]
  simp only [Bool.true_eq_false, if_false]
  rw [if_neg]
  rcases hone with h | h | h | h <;> simp [h]

/-- Witness for C4 amended: Bernoulli load fails, the other three slots
still load. -/
theorem load_models_isolated_slots_witness :
    load_models ⟨true, false, true, true, true, true⟩ =
      Except.ok ⟨false, true, true, true⟩ :=
  load_models_isolated_slots ⟨true, false, true, true, true, true⟩ rfl rfl
    (Or.inr (Or.inl rfl))

/-- C6.  With the directory located and the vectorizer loaded but every
classifier load failed, `load_models` raises the fatal no-models error;
and the aggregation raises on an empty result sequence. -/
theorem zero_signal_raises :
    (∀ d : DiskState, d.rfFileExists = true → d.vectLoads = true →
      d.bnbLoads = false → d.dctLoads = false → d.pcaLoads = false →
      d.rfLoads = false → load_models d = Except.error LoadError.noModels) ∧
    predict_ensemble_aggregate [] = Except.error () := by
  constructor
  · intro d hrf hv hb hd hp hr
    unfold load_models
    rw [hrf, hv]
    simp [hb, hd, hp, hr]
  · rfl

/-- Witness for C6 at the disk state where only the vectorizer loads. -/
theorem zero_signal_raises_witness :
    load_models ⟨true, false, false, false, false, true⟩ =
      Except.error LoadError.noModels :=
  zero_signal_raises.1 ⟨true, false, false, false, false, true⟩ rfl rfl rfl
    rfl rfl rfl

/-- C8.  Every loaded slot whose invocation succeeds contributes exactly
its role's fixed adaptation to the executor output: logistic of the
decision score for `bernoulli_nb` and `pca_based`, a bare label for
`decision_tree`, and the class-1 probability mass for `random_forest`,
each paired with the model's hard-label prediction. -/
theorem run_all_per_role_adaptation (exp : ℚ → ℚ) (s : Slots) :
    (∀ m : ScoreModel, s.B = some (Except.ok m) →
      ModelResult.mk m.pred (some (logistic exp m.score)) ∈ run_all exp s) ∧
    (∀ m : TreeModel, s.DCT = some (Except.ok m) →
      ModelResult.mk m.pred none ∈ run_all exp s) ∧
    (∀ m : ScoreModel, s.PCA = some (Except.ok m) →
      ModelResult.mk m.pred (some (logistic exp m.score)) ∈ run_all exp s) ∧
    (∀ m : ForestModel, s.rf = some (Except.ok m) →
      ModelResult.mk m.pred (some m.proba1) ∈ run_all exp s) := by
  refine ⟨fun m hm => ?_, fun m hm => ?_, fun m hm => ?_, fun m hm => ?_⟩ <;>
    simp [run_all, runSlot, hm]

/-- Witness for C8: a Bernoulli slot with decision score two and hard
label one contributes the logistic-adapted result. -/
theorem run_all_per_role_adaptation_witness :
    ModelResult.mk 1 (some (logistic id 2)) ∈
      run_all id ⟨some (Except.ok ⟨2, 1⟩), none, none, none⟩ :=
  (run_all_per_role_adaptation id
    ⟨some (Except.ok ⟨2, 1⟩), none, none, none⟩).1 ⟨2, 1⟩ rfl

/-- C9.  The preprocessing applies, in order, non-alphabetic replacement,
lower-casing, whitespace splitting, stopword dropping (dropping nothing
when the resource is unavailable), stemming, and single-space rejoining;
the empty input and all-stopword inputs yield the empty string. -/
theorem preprocess_text_stages (stopRes : Option (List String))
    (stem : String → String) (text : String) :
    preprocess_text stopRes stem text =
      String.intercalate " "
        (((pySplit (pyLower (subNonAlpha text))).filter
            fun word => word ∉ stop_words stopRes).map stem) ∧
    (stopRes = none →
      preprocess_text stopRes stem text =
        String.intercalate " "
          ((pySplit (pyLower (subNonAlpha text))).map stem)) ∧
    preprocess_text stopRes stem "" = "" ∧
    ((∀ word ∈ pySplit (pyLower (subNonAlpha text)),
        word ∈ stop_words stopRes) →
      preprocess_text stopRes stem text = "") := by
  refine ⟨rfl, ?_, ?_, ?_⟩
  · intro h
    subst h
    simp [preprocess_text, stop_words]
  · rfl
  · intro hall
    have hfil : (pySplit (pyLower (subNonAlpha text))).filter
        (fun word => word ∉ stop_words stopRes) = [] := by
      rw [List.filter_eq_nil_iff]
      intro a ha
      simpa using hall a ha
    show String.intercalate " "
      (((pySplit (pyLower (subNonAlpha text))).filter
          fun word => word ∉ stop_words stopRes).map stem) = ""
    rw [hfil]
    rfl

/-- Witness for C9: an input made of stopwords and punctuation only maps
to the empty string. -/
theorem preprocess_text_stages_witness :
    preprocess_text (some ["a", "the"]) id "The a!!" = "" :=
  (preprocess_text_stages (some ["a", "the"]) id "The a!!").2.2.2 (by decide)

/-- C5.  The entry point prints the neutral default without invoking the
pipeline when the argument is missing, empty, or whitespace-only, and
prints the neutral default whenever the pipeline raises. -/
theorem main_neutral_default (text : String)
    (pipeline : String → Except PipeError (Label × ℚ)) :
    ((pyStrip text).length = 0 →
      main (some text) pipeline = ⟨(3, 1/2), false⟩) ∧
    (∀ e, pipeline text = Except.error e →
      (main (some text) pipeline).printed = (3, 1/2)) ∧
    main none pipeline = ⟨(3, 1/2), false⟩ := by
  refine ⟨fun hws => ?_, fun e he => ?_, rfl⟩
  · show (if text = "" ∨ (pyStrip text).length = 0 then
        (⟨(3, 1/2), false⟩ : MainOutput)
      else
        match pipeline text with
        | Except.ok (prediction_label, confidence) =>
            ⟨(convert_to_liar_scale prediction_label confidence, confidence),
              true⟩
        | Except.error _ => ⟨(3, 1/2), true⟩) = ⟨(3, 1/2), false⟩
    rw [if_pos (Or.inr hws)]
  · show (if text = "" ∨ (pyStrip text).length = 0 then
        (⟨(3, 1/2), false⟩ : MainOutput)
      else
        match pipeline text with
        | Except.ok (prediction_label, confidence) =>
            ⟨(convert_to_liar_scale prediction_label confidence, confidence),
              true⟩
        | Except.error _ => ⟨(3, 1/2), true⟩).printed = (3, 1/2)
    by_cases hcond : text = "" ∨ (pyStrip text).length = 0
    · rw [if_pos hcond]
    · rw [if_neg hcond, he]

/-- Witness for C5 at a whitespace-only argument and an always-raising
pipeline. -/
theorem main_neutral_default_witness :
    main (some " ") (fun _ => Except.error PipeError.other) =
      ⟨(3, 1/2), false⟩ :=
  (main_neutral_default " " (fun _ => Except.error PipeError.other)).1
    (by decide)

end FakeNews
